import Mathlib

/-
  Shallow embedding of the vexo-shop API clients:
    admin_automation.py  (ApiClient, CLI actions, main)
    store_tui.py         (menu-driven terminal front-end)

  The HTTP server is modelled as an environment function from requests to
  responses; a response carries its status, raw text, the result of JSON
  decoding (none when decoding fails) and the cookie jar the session holds
  after the response.  The mutable world visible to the program is a state
  `St` holding the cookie files on disk, the list of HTTP requests issued,
  and the lines printed.  Python exceptions are modelled by the `Failure`
  sum; a computation is `M a = St -> Except Failure a × St`.
-/

set_option autoImplicit false

namespace Vexo

/-- JSON values as decoded by `resp.json()` (numbers restricted to integers,
which is all this client ever sends or inspects). -/
inductive Json where
  | null
  | bool (b : Bool)
  | num (n : Int)
  | str (s : String)
  | arr (xs : List Json)
  | obj (fields : List (String × Json))

/-- The value `ApiClient.request` works with after the `resp.json()` /
`except ValueError: data = resp.text` step: a decoded JSON value or the raw
body text. -/
inductive PyData where
  | json (j : Json)
  | text (s : String)

/-- A cookie jar: cookie names to values. -/
abbrev Jar := List (String × String)

/-- One HTTP request as issued by `self.sess.request(method, url, params=..., json=...)`. -/
structure Req where
  method : String
  url : String
  params : List (String × Json)
  body : Option Json

/-- One HTTP response: status code, raw text, the result of `resp.json()`
(`none` models the `ValueError` branch), and the session cookie jar after the
Set-Cookie headers of the response were processed. -/
structure HttpResp where
  status : Nat
  text : String
  jsonBody : Option Json
  jarAfter : Jar

/-- The `ApiError` exception: it carries only its message string. -/
structure ApiError where
  msg : String

/-- Python exceptions that can propagate out of a client call:
`ApiError`, `requests.RequestException` (transport), or any other uncaught
exception such as `AttributeError` or `KeyError`. -/
inductive Failure where
  | apiError (e : ApiError)
  | netError (m : String)
  | pyError (m : String)

/-- The observable world: cookie files on disk, the log of HTTP requests
issued so far, and the lines printed so far. -/
structure St where
  disk : List (String × Jar)
  log : List Req
  out : List String

/-- A client computation: state in, exceptional or normal result plus state out. -/
abbrev M (α : Type) : Type := St → Except Failure α × St

def mret {α : Type} (a : α) : M α := fun st => (.ok a, st)

def mbind {α β : Type} (m : M α) (f : α → M β) : M β := fun st =>
  match m st with
  | (.ok a, st') => f a st'
  | (.error e, st') => (.error e, st')

def mthrow {α : Type} (e : Failure) : M α := fun st => (.error e, st)

/-- `try/except` over all exceptions; the handler decides what to catch. -/
def mtry {α : Type} (m : M α) (h : Failure → M α) : M α := fun st =>
  match m st with
  | (.ok a, st') => (.ok a, st')
  | (.error e, st') => h e st'

/-- Run a computation on a state (the identity, kept for readable statements). -/
abbrev runM {α : Type} (m : M α) (st : St) : Except Failure α × St := m st

/-- Append one printed line. -/
def pushOut (st : St) (s : String) : St := { st with out := st.out ++ [s] }

/-- Python dict assignment `d[k] = v` on an insertion-ordered assoc list. -/
def dset {α : Type} : List (String × α) → String → α → List (String × α)
  | [], k, v => [(k, v)]
  | (k', v') :: rest, k, v =>
    if k' == k then (k', v) :: rest else (k', v') :: dset rest k v

/-- Python dict lookup `d.get(k)`. -/
def dget {α : Type} : List (String × α) → String → Option α
  | [], _ => none
  | (k', v') :: rest, k => if k' == k then some v' else dget rest k

/-- Python `d.update(kvs)`. -/
def dupd {α : Type} (d : List (String × α)) (kvs : List (String × α)) :
    List (String × α) :=
  kvs.foldl (fun acc kv => dset acc kv.1 kv.2) d

/-- Whether a key is present in a payload. -/
def hasKey {α : Type} (d : List (String × α)) (k : String) : Bool :=
  (dget d k).isSome

/-- Python `sub in s` on character lists. -/
def hasSublist : List Char → List Char → Bool
  | [], sub => sub.isEmpty
  | s@(_ :: t), sub => sub.isPrefixOf s || hasSublist t sub

/-- Python substring test `sub in s`. -/
def strContains (s sub : String) : Bool := hasSublist s.data sub.data

/-- `n` spaces. -/
def spaces (n : Nat) : String := String.mk (List.replicate n ' ')

/-- Minimal JSON string escaping as performed by `json.dumps`. -/
def jsEscapeChar (c : Char) : String :=
  if c = '"' then "\\\"" else if c = '\\' then "\\\\"
  else if c = '\n' then "\\n" else String.singleton c

def jsEscape (s : String) : String := String.join (s.data.map jsEscapeChar)

/-- A single-quote character, used by the Python `repr` of strings. -/
def sq : String := String.singleton (Char.ofNat 39)

mutual
/-- `json.dumps(j, indent=2)` at a given current indentation. -/
def dumps2 (ind : Nat) : Json → String
  | .null => "null"
  | .bool b => if b then "true" else "false"
  | .num n => toString n
  | .str s => "\"" ++ jsEscape s ++ "\""
  | .arr [] => "[]"
  | .arr (x :: xs) =>
    "[\n" ++ dumps2Arr (ind + 2) x xs ++ "\n" ++ spaces ind ++ "]"
  | .obj [] => "\x7b\x7d"
  | .obj ((k, v) :: fs) =>
    "\x7b\n" ++ dumps2Obj (ind + 2) k v fs ++ "\n" ++ spaces ind ++ "\x7d"
termination_by j => sizeOf j
decreasing_by all_goals (simp_wf; try omega)

def dumps2Arr (ind : Nat) (x : Json) (xs : List Json) : String :=
  match xs with
  | [] => spaces ind ++ dumps2 ind x
  | y :: ys => spaces ind ++ dumps2 ind x ++ ",\n" ++ dumps2Arr ind y ys
termination_by 1 + sizeOf x + sizeOf xs
decreasing_by all_goals (simp_wf; try omega)

def dumps2Obj (ind : Nat) (k : String) (v : Json) (fs : List (String × Json)) :
    String :=
  match fs with
  | [] => spaces ind ++ "\"" ++ jsEscape k ++ "\": " ++ dumps2 ind v
  | (k', v') :: gs =>
    spaces ind ++ "\"" ++ jsEscape k ++ "\": " ++ dumps2 ind v ++ ",\n" ++
      dumps2Obj ind k' v' gs
termination_by 1 + sizeOf v + sizeOf fs
decreasing_by all_goals (simp_wf; try omega)
end

mutual
/-- Python `repr` of a decoded JSON value. -/
def pyRepr : Json → String
  | .null => "None"
  | .bool b => if b then "True" else "False"
  | .num n => toString n
  | .str s => sq ++ s ++ sq
  | .arr [] => "[]"
  | .arr (x :: xs) => "[" ++ pyReprArr x xs ++ "]"
  | .obj [] => "\x7b\x7d"
  | .obj ((k, v) :: fs) => "\x7b" ++ pyReprObj k v fs ++ "\x7d"
termination_by j => sizeOf j
decreasing_by all_goals (simp_wf; try omega)

def pyReprArr (x : Json) (xs : List Json) : String :=
  match xs with
  | [] => pyRepr x
  | y :: ys => pyRepr x ++ ", " ++ pyReprArr y ys
termination_by 1 + sizeOf x + sizeOf xs
decreasing_by all_goals (simp_wf; try omega)

def pyReprObj (k : String) (v : Json) (fs : List (String × Json)) : String :=
  match fs with
  | [] => sq ++ k ++ sq ++ ": " ++ pyRepr v
  | (k', v') :: gs =>
    sq ++ k ++ sq ++ ": " ++ pyRepr v ++ ", " ++ pyReprObj k' v' gs
termination_by 1 + sizeOf v + sizeOf fs
decreasing_by all_goals (simp_wf; try omega)
end

/-- Python `str` of a decoded JSON value, as interpolated by an f-string. -/
def pyStrTop : Json → String
  | .str s => s
  | j => pyRepr j

/-- The body part of the `ApiError` message:
`json.dumps(data, indent=2) if isinstance(data, dict) else data` under `str`. -/
def errBody : PyData → String
  | .json (.obj fs) => dumps2 0 (.obj fs)
  | .json j => pyStrTop j
  | .text s => s

/-- The `ApiError` message raised by `ApiClient.request`. -/
def errMsg (method path : String) (status : Nat) (data : PyData) : String :=
  "HTTP " ++ toString status ++ " for " ++ method ++ " " ++ path ++ ": " ++
    errBody data

/-- `data = resp.json()` with `except ValueError: data = resp.text`. -/
def decodeBody (r : HttpResp) : PyData :=
  match r.jsonBody with
  | some j => .json j
  | none => .text r.text

/-- The server and I/O environment a client runs against: each issued request
either fails at transport level (`error`) or yields a response. -/
abbrev Env := Req → Except String HttpResp

/-- The `ApiClient` instance together with its environment: constructor
arguments (`base_url`, `cookie_file`, `verbose`), plus the behaviour of the
outside world (responses, and whether the cookie-file write raises). -/
structure ApiClient where
  base_url : String
  cookie_file : Option String
  verbose : Bool
  saveFails : Bool
  saveErrMsg : String
  env : Env

/-- The request record passed to `self.sess.request`. -/
def mkReq (c : ApiClient) (method path : String) (params : List (String × Json))
    (body : Option Json) : Req :=
  { method := method, url := c.base_url ++ path, params := params, body := body }

/-- `_save_cookies`: pickle the jar to the configured file; failures are
printed (when verbose) and swallowed. -/
def saveDisk (c : ApiClient) (jar : Jar) (st : St) : St :=
  match c.cookie_file with
  | none => st
  | some path =>
    if c.saveFails then
      if c.verbose then
        pushOut st ("[cookies] Failed to save cookie jar: " ++ c.saveErrMsg)
      else st
    else
      let st' := { st with disk := dset st.disk path jar }
      if c.verbose then pushOut st' ("[cookies] Saved cookie jar to " ++ path)
      else st'

def ApiClient.save_cookies (c : ApiClient) (jar : Jar) : M Unit := fun st =>
  (.ok (), saveDisk c jar st)

/-- `ApiClient.request`: issue the request, decode the body with raw-text
fallback, print the status line when verbose, raise `ApiError` outside
[200, 300), and save cookies before returning on success. -/
def ApiClient.request (c : ApiClient) (method path : String)
    (params : List (String × Json) := []) (body : Option Json := none) :
    M PyData := fun st =>
  let req := mkReq c method path params body
  let st1 := { st with log := st.log ++ [req] }
  match c.env req with
  | .error m => (.error (.netError m), st1)
  | .ok resp =>
    let data := decodeBody resp
    let st2 :=
      if c.verbose then
        pushOut st1 ("[" ++ method ++ " " ++ path ++ "] " ++ toString resp.status)
      else st1
    if 200 ≤ resp.status ∧ resp.status < 300 then
      (.ok data, saveDisk c resp.jarAfter st2)
    else
      (.error (.apiError ⟨errMsg method path resp.status data⟩), st2)

/-! ### Payload and query-string construction idioms -/

/-- `if v: d[k] = v` for an optional string (Python truthiness). -/
def addIfTruthy (d : List (String × Json)) (k : String) (v : Option String) :
    List (String × Json) :=
  match v with
  | some s => if s != "" then dset d k (.str s) else d
  | none => d

/-- `if v is not None: d[k] = v` for an optional string. -/
def addIfSome (d : List (String × Json)) (k : String) (v : Option String) :
    List (String × Json) :=
  match v with
  | some s => dset d k (.str s)
  | none => d

/-- `if v is not None: d[k] = v` for an optional integer. -/
def addIfSomeInt (d : List (String × Json)) (k : String) (v : Option Int) :
    List (String × Json) :=
  match v with
  | some n => dset d k (.num n)
  | none => d

/-- `if v is not None: d[k] = v` for an optional boolean. -/
def addIfSomeBool (d : List (String × Json)) (k : String) (v : Option Bool) :
    List (String × Json) :=
  match v with
  | some b => dset d k (.bool b)
  | none => d

/-- `if s: d[k] = s` for a plain string. -/
def addStrIf (d : List (String × Json)) (k : String) (s : String) :
    List (String × Json) :=
  if s != "" then dset d k (.str s) else d

/-- Python `a or d` for an optional string `a` (empty and `None` are falsy). -/
def orDefault (a : Option String) (d : String) : String :=
  match a with
  | some s => if s != "" then s else d
  | none => d

/-- `q = slug or name or ""`. -/
def qOf (slug name : Option String) : String := orDefault slug (orDefault name "")

/-- Python `d.get(k)` on a decoded JSON value (a dict yields its field). -/
def jGet (j : Json) (k : String) : Option Json :=
  match j with
  | .obj fs => dget fs k
  | _ => none

/-- Python `value == s` between a dict field and a string. -/
def jeqStr (v : Option Json) (s : String) : Bool :=
  match v with
  | some (.str a) => a == s
  | _ => false

/-- `res.get("items", []) if isinstance(res, dict) else []`. -/
def itemsOf (res : PyData) : List Json :=
  match res with
  | .json (.obj fs) =>
    match dget fs "items" with
    | some (.arr xs) => xs
    | _ => []
  | _ => []

/-! ### Domain helpers: brands -/

def listBrandsParams (page pageSize : Int) (q : String) : List (String × Json) :=
  let params := [("page", Json.num page), ("pageSize", Json.num pageSize)]
  if q != "" then dset params "q" (Json.str q) else params

def ApiClient.list_brands (c : ApiClient) (page : Int := 1)
    (pageSize : Int := 20) (q : String := "") : M PyData :=
  c.request "GET" "/api/admin/brands" (listBrandsParams page pageSize q)

def ApiClient.create_brand (c : ApiClient) (kwargs : List (String × Json)) :
    M PyData :=
  c.request "POST" "/api/admin/brands" [] (some (.obj kwargs))

def ApiClient.update_brand (c : ApiClient) (brand_id : String)
    (kwargs : List (String × Json)) : M PyData :=
  c.request "PUT" ("/api/admin/brands/" ++ brand_id) [] (some (.obj kwargs))

def ApiClient.delete_brand (c : ApiClient) (brand_id : String) : M PyData :=
  c.request "DELETE" ("/api/admin/brands/" ++ brand_id)

/-- The per-item test of `find_brand`: slug match first, then name match. -/
def brandItemMatch (slug name : Option String) (it : Json) : Bool :=
  (match slug with
   | some s => s != "" && jeqStr (jGet it "slug") s
   | none => false) ||
  (match name with
   | some s => s != "" && jeqStr (jGet it "name") s
   | none => false)

def ApiClient.find_brand (c : ApiClient) (slug name : Option String) :
    M (Option Json) :=
  let q := qOf slug name
  if q == "" then mret none
  else
    mbind (c.list_brands 1 50 q) fun res =>
      mret (List.find? (brandItemMatch slug name) (itemsOf res))

/-- The `payload` dict built by `ensure_brand`. -/
def ensureBrandPayload (name : String) (slug : Option String)
    (kwargs : List (String × Json)) : List (String × Json) :=
  dupd (addIfTruthy [("name", Json.str name)] "slug" slug) kwargs

/-- Conflict heuristic of `ensure_brand` / `ensure_category`:
`"409" in str(e) or "Conflict" in str(e)`. -/
def isConflictMsg (m : String) : Bool :=
  strContains m "409" || strContains m "Conflict"

/-- Conflict heuristic of `ensure_product`:
`"409" in str(e) or "Slug already exists" in str(e) or "Conflict" in str(e)`. -/
def isConflictMsgProd (m : String) : Bool :=
  strContains m "409" || strContains m "Slug already exists" ||
    strContains m "Conflict"

/-- The found-existing branch common to the `ensure_*` helpers: when verbose,
print the `Using existing ...` line (whose f-string indexes `existing["id"]`,
raising `KeyError` when absent), then return the existing record. -/
def useExisting (tag noun : String) (c : ApiClient) (it : Json) : M PyData :=
  fun st =>
    if c.verbose then
      match jGet it "id" with
      | some v =>
        (.ok (.json it),
          pushOut st ("[" ++ tag ++ "] Using existing " ++ noun ++ " " ++
            pyStrTop v ++ " (" ++ pyStrTop ((jGet it "slug").getD Json.null) ++ ")"))
      | none => (.error (.pyError "KeyError: id"), st)
    else (.ok (.json it), st)

def ApiClient.ensure_brand (c : ApiClient) (name : String)
    (slug : Option String := none) (kwargs : List (String × Json) := []) :
    M PyData :=
  mtry (c.create_brand (ensureBrandPayload name slug kwargs)) fun f =>
    match f with
    | .apiError e =>
      if isConflictMsg e.msg then
        mbind (c.find_brand slug (some name)) fun existing =>
          match existing with
          | some it => useExisting "ensure_brand" "brand" c it
          | none => mthrow (.apiError e)
      else mthrow (.apiError e)
    | f' => mthrow f'

/-! ### Domain helpers: categories -/

def listCategoriesParams (page pageSize : Int) (q : String)
    (parent_id : Option String) : List (String × Json) :=
  let params := [("page", Json.num page), ("pageSize", Json.num pageSize)]
  let params := if q != "" then dset params "q" (Json.str q) else params
  match parent_id with
  | some pid => dset params "parentId" (Json.str pid)
  | none => params

def ApiClient.list_categories (c : ApiClient) (page : Int := 1)
    (pageSize : Int := 20) (q : String := "")
    (parent_id : Option String := none) : M PyData :=
  c.request "GET" "/api/admin/categories"
    (listCategoriesParams page pageSize q parent_id)

def ApiClient.create_category (c : ApiClient) (kwargs : List (String × Json)) :
    M PyData :=
  c.request "POST" "/api/admin/categories" [] (some (.obj kwargs))

def ApiClient.update_category (c : ApiClient) (cat_id : String)
    (kwargs : List (String × Json)) : M PyData :=
  c.request "PUT" ("/api/admin/categories/" ++ cat_id) [] (some (.obj kwargs))

def ApiClient.delete_category (c : ApiClient) (cat_id : String) : M PyData :=
  c.request "DELETE" ("/api/admin/categories/" ++ cat_id)

/-- The per-item test of `find_category`: slug match first, then name match
additionally requiring the parent to agree when a parent id was given. -/
def catItemMatch (slug name parent_id : Option String) (it : Json) : Bool :=
  (match slug with
   | some s => s != "" && jeqStr (jGet it "slug") s
   | none => false) ||
  (match name with
   | some s =>
     s != "" && jeqStr (jGet it "name") s &&
       (match parent_id with
        | none => true
        | some p => jeqStr (jGet it "parentId") p)
   | none => false)

/-- `find_category` has no empty-query early return: it always issues the
list request. -/
def ApiClient.find_category (c : ApiClient)
    (slug name parent_id : Option String) : M (Option Json) :=
  let q := qOf slug name
  mbind (c.list_categories 1 100 q parent_id) fun res =>
    mret (List.find? (catItemMatch slug name parent_id) (itemsOf res))

/-- The `payload` dict built by `ensure_category`. -/
def ensureCategoryPayload (name : String) (slug parentId : Option String)
    (kwargs : List (String × Json)) : List (String × Json) :=
  dupd (addIfTruthy (addIfTruthy [("name", Json.str name)] "slug" slug)
    "parentId" parentId) kwargs

def ApiClient.ensure_category (c : ApiClient) (name : String)
    (slug : Option String := none) (parentId : Option String := none)
    (kwargs : List (String × Json) := []) : M PyData :=
  mtry (c.create_category (ensureCategoryPayload name slug parentId kwargs))
    fun f =>
    match f with
    | .apiError e =>
      if isConflictMsg e.msg then
        mbind (c.find_category slug (some name) parentId) fun existing =>
          match existing with
          | some it => useExisting "ensure_category" "category" c it
          | none => mthrow (.apiError e)
      else mthrow (.apiError e)
    | f' => mthrow f'

/-! ### Domain helpers: products -/

def listProductsParams (page pageSize : Int) (q : String) :
    List (String × Json) :=
  let params := [("page", Json.num page), ("pageSize", Json.num pageSize)]
  if q != "" then dset params "q" (Json.str q) else params

def ApiClient.list_products (c : ApiClient) (page : Int := 1)
    (pageSize : Int := 20) (q : String := "") : M PyData :=
  c.request "GET" "/api/admin/products" (listProductsParams page pageSize q)

def ApiClient.create_product (c : ApiClient) (kwargs : List (String × Json)) :
    M PyData :=
  c.request "POST" "/api/admin/products" [] (some (.obj kwargs))

def ApiClient.update_product (c : ApiClient) (product_id : String)
    (kwargs : List (String × Json)) : M PyData :=
  c.request "PUT" ("/api/admin/products/" ++ product_id) [] (some (.obj kwargs))

def ApiClient.delete_product (c : ApiClient) (product_id : String) : M PyData :=
  c.request "DELETE" ("/api/admin/products/" ++ product_id)

/-- The per-item test of `find_product`: slug match first, then title match. -/
def prodItemMatch (slug title : Option String) (it : Json) : Bool :=
  (match slug with
   | some s => s != "" && jeqStr (jGet it "slug") s
   | none => false) ||
  (match title with
   | some s => s != "" && jeqStr (jGet it "title") s
   | none => false)

def ApiClient.find_product (c : ApiClient) (slug title : Option String) :
    M (Option Json) :=
  let q := qOf slug title
  if q == "" then mret none
  else
    mbind (c.list_products 1 50 q) fun res =>
      mret (List.find? (prodItemMatch slug title) (itemsOf res))

/-- The `payload` dict built by `ensure_product`. -/
def ensureProductPayload (title : String) (slug : Option String)
    (kwargs : List (String × Json)) : List (String × Json) :=
  dupd (addIfTruthy [("title", Json.str title)] "slug" slug) kwargs

def ApiClient.ensure_product (c : ApiClient) (title : String)
    (slug : Option String := none) (kwargs : List (String × Json) := []) :
    M PyData :=
  mtry (c.create_product (ensureProductPayload title slug kwargs)) fun f =>
    match f with
    | .apiError e =>
      if isConflictMsgProd e.msg then
        mbind (c.find_product slug (some title)) fun existing =>
          match existing with
          | some it => useExisting "ensure_product" "product" c it
          | none => mthrow (.apiError e)
      else mthrow (.apiError e)
    | f' => mthrow f'

/-! ### Variants -/

def ApiClient.update_variant (c : ApiClient) (variant_id : String)
    (kwargs : List (String × Json)) : M PyData :=
  c.request "PUT" ("/api/admin/variants/" ++ variant_id) [] (some (.obj kwargs))

def ApiClient.delete_variant (c : ApiClient) (variant_id : String) : M PyData :=
  c.request "DELETE" ("/api/admin/variants/" ++ variant_id)

/-! ### Auth, catalog, cart, checkout helpers used by the front-ends -/

def ApiClient.me (c : ApiClient) : M PyData :=
  c.request "GET" "/api/auth/me"

def catalogProductsParams (page pageSize : Int) (q brand category sort : String)
    (min_price max_price : Option Int) : List (String × Json) :=
  let params := [("page", Json.num page), ("pageSize", Json.num pageSize),
    ("sort", Json.str sort)]
  let params := addStrIf params "q" q
  let params := addStrIf params "brand" brand
  let params := addStrIf params "category" category
  let params := addIfSomeInt params "minPrice" min_price
  addIfSomeInt params "maxPrice" max_price

def ApiClient.catalog_products (c : ApiClient) (page : Int := 1)
    (pageSize : Int := 24) (q : String := "") (brand : String := "")
    (category : String := "") (sort : String := "newest")
    (min_price : Option Int := none) (max_price : Option Int := none) :
    M PyData :=
  c.request "GET" "/api/catalog/products"
    (catalogProductsParams page pageSize q brand category sort min_price
      max_price)

def ApiClient.catalog_product (c : ApiClient) (slug : String) : M PyData :=
  c.request "GET" ("/api/catalog/products/" ++ slug)

def ApiClient.cart_get (c : ApiClient) : M PyData :=
  c.request "GET" "/api/cart"

def ApiClient.cart_clear (c : ApiClient) : M PyData :=
  c.request "DELETE" "/api/cart"

def ApiClient.cart_add_item (c : ApiClient) (variant_id : String)
    (qty : Int := 1) : M PyData :=
  c.request "POST" "/api/cart/items" []
    (some (.obj [("variantId", .str variant_id), ("quantity", .num qty)]))

def ApiClient.cart_update_item (c : ApiClient) (item_id : String) (qty : Int) :
    M PyData :=
  c.request "PATCH" ("/api/cart/items/" ++ item_id) []
    (some (.obj [("quantity", .num qty)]))

def ApiClient.cart_delete_item (c : ApiClient) (item_id : String) : M PyData :=
  c.request "DELETE" ("/api/cart/items/" ++ item_id)

def ApiClient.cart_apply_coupon (c : ApiClient) (code : String) : M PyData :=
  c.request "POST" "/api/cart/coupon" [] (some (.obj [("code", .str code)]))

def ApiClient.cart_remove_coupon (c : ApiClient) : M PyData :=
  c.request "DELETE" "/api/cart/coupon"

/-- The body dict built by `checkout`. -/
def checkoutBody (email : Option String) (provider : String) (capture : Bool)
    (shipping_address_id billing_address_id : Option String) :
    List (String × Json) :=
  let body := [("payment",
    Json.obj [("provider", .str provider), ("capture", .bool capture)])]
  let body := addIfTruthy body "email" email
  let body := addIfTruthy body "shippingAddressId" shipping_address_id
  addIfTruthy body "billingAddressId" billing_address_id

def ApiClient.checkout (c : ApiClient) (email : Option String := none)
    (provider : String := "manual") (capture : Bool := true)
    (shipping_address_id : Option String := none)
    (billing_address_id : Option String := none) : M PyData :=
  c.request "POST" "/api/checkout" []
    (some (.obj (checkoutBody email provider capture shipping_address_id
      billing_address_id)))

/-! ### CLI layer (`build_parser`, `act_*`, `main`) -/

/-- How an optional CLI flag appears on the command line. -/
inductive CliFlag where
  | absent
  | bare
  | val (s : String)

/-- The argparse semantics of the update flags declared with
`nargs="?", const=None` (default `None`): a flag given with no value yields
`const`, i.e. `None`, exactly like an absent flag; only a flag with a value
yields that value. -/
def parseOptValFlag : CliFlag → Option String
  | .absent => none
  | .bare => none
  | .val s => some s

/-- Parsed arguments of `brands update`. -/
structure BrandUpdateArgs where
  id : String
  name : Option String
  slug : Option String
  description : Option String
  website : Option String
  logo_url : Option String

/-- The payload built by `act_brands` for `action == "update"`. -/
def brandsUpdatePayload (a : BrandUpdateArgs) : List (String × Json) :=
  let p : List (String × Json) := []
  let p := addIfTruthy p "name" a.name
  let p := addIfTruthy p "slug" a.slug
  let p := addIfSome p "description" a.description
  let p := addIfSome p "website" a.website
  addIfSome p "logoUrl" a.logo_url

/-- Parsed arguments of `categories update`. -/
structure CategoryUpdateArgs where
  id : String
  name : Option String
  slug : Option String
  description : Option String
  parent_id : Option String

/-- The payload built by `act_categories` for `action == "update"`. -/
def categoriesUpdatePayload (a : CategoryUpdateArgs) : List (String × Json) :=
  let p : List (String × Json) := []
  let p := addIfTruthy p "name" a.name
  let p := addIfTruthy p "slug" a.slug
  let p := addIfSome p "description" a.description
  addIfSome p "parentId" a.parent_id

/-- Parsed arguments of `products update`. -/
structure ProductUpdateArgs where
  id : String
  title : Option String
  slug : Option String
  description : Option String
  brand_id : Option String
  status : Option String
  skuPfx : Option String
  image : Option String
  category_ids : Option (List String)

/-- `if args.image is not None: payload["images"] = [{"url": args.image}]`. -/
def addImagesIf (d : List (String × Json)) (v : Option String) :
    List (String × Json) :=
  match v with
  | some u => dset d "images" (.arr [.obj [("url", .str u)]])
  | none => d

/-- `if args.category_ids is not None: payload["categoryIds"] = args.category_ids`. -/
def addCategoryIdsIf (d : List (String × Json)) (v : Option (List String)) :
    List (String × Json) :=
  match v with
  | some ids => dset d "categoryIds" (.arr (ids.map .str))
  | none => d

/-- The payload built by `act_products` for `action == "update"`. -/
def productsUpdatePayload (a : ProductUpdateArgs) : List (String × Json) :=
  let p : List (String × Json) := []
  let p := addIfTruthy p "title" a.title
  let p := addIfTruthy p "slug" a.slug
  let p := addIfSome p "description" a.description
  let p := addIfSome p "brandId" a.brand_id
  let p := addIfTruthy p "status" a.status
  let p := addIfSome p "skuPrefix" a.skuPfx
  let p := addImagesIf p a.image
  addCategoryIdsIf p a.category_ids

/-- Parsed arguments of `variant update`. -/
structure VariantUpdateArgs where
  variant_id : String
  sku : Option String
  title : Option String
  price_cents : Option Int
  compare_at_cents : Option Int
  cost_cents : Option Int
  currency : Option String
  track_inventory : Option Bool
  isDefaultFlag : Bool

/-- `if args.default: payload["isDefault"] = True`. -/
def addDefaultIf (d : List (String × Json)) (b : Bool) :
    List (String × Json) :=
  if b then dset d "isDefault" (.bool true) else d

/-- The payload built by `act_variant` for `action == "update"`. -/
def variantUpdatePayload (a : VariantUpdateArgs) : List (String × Json) :=
  let p : List (String × Json) := []
  let p := addIfTruthy p "sku" a.sku
  let p := addIfTruthy p "title" a.title
  let p := addIfSomeInt p "priceCents" a.price_cents
  let p := addIfSomeInt p "compareAtCents" a.compare_at_cents
  let p := addIfSomeInt p "costCents" a.cost_cents
  let p := addIfTruthy p "currency" a.currency
  let p := addIfSomeBool p "trackInventory" a.track_inventory
  addDefaultIf p a.isDefaultFlag

/-- `pretty(obj)`: `json.dumps(obj, indent=2, ensure_ascii=False)`. -/
def prettyStr : PyData → String
  | .json j => dumps2 0 j
  | .text s => dumps2 0 (.str s)

def prettyM (d : PyData) : M Unit := fun st => (.ok (), pushOut st (prettyStr d))

def act_me (c : ApiClient) : M Unit := mbind c.me prettyM

def act_brands_update (c : ApiClient) (a : BrandUpdateArgs) : M Unit :=
  mbind (c.update_brand a.id (brandsUpdatePayload a)) prettyM

def act_categories_update (c : ApiClient) (a : CategoryUpdateArgs) : M Unit :=
  mbind (c.update_category a.id (categoriesUpdatePayload a)) prettyM

def act_products_update (c : ApiClient) (a : ProductUpdateArgs) : M Unit :=
  mbind (c.update_product a.id (productsUpdatePayload a)) prettyM

def act_variant_update (c : ApiClient) (a : VariantUpdateArgs) : M Unit :=
  mbind (c.update_variant a.variant_id (variantUpdatePayload a)) prettyM

/-- `main`: dispatch the parsed action; `ApiError` exits 2, transport errors
exit 3, normal completion falls off the end of `main` and the process exits 0.
Any other uncaught exception terminates the interpreter with exit code 1. -/
def pyMain (action : M Unit) (st : St) : Nat × St :=
  match action st with
  | (.ok _, st') => (0, st')
  | (.error (.apiError e), st') => (2, pushOut st' e.msg)
  | (.error (.netError m), st') => (3, pushOut st' ("Network error: " ++ m))
  | (.error (.pyError m), st') => (1, pushOut st' m)

/-! ### Interactive front-end (`store_tui.py`) -/

/-- One iteration of a menu loop body wrapped in `try/except ApiError`:
an `ApiError` is printed and control returns to the menu; any other
exception propagates out of the loop. -/
def menuTry (body : M Unit) : M Unit := fun st =>
  match body st with
  | (.ok _, st') => (.ok (), st')
  | (.error (.apiError e), st') => (.ok (), pushOut st' e.msg)
  | (.error f, st') => (.error f, st')

/-- A choice in the `Admin / Brands` menu together with the prompted inputs. -/
inductive BrandsAction where
  | list (q : String) (page pageSize : Int)
  | create (name slug desc website logo : String)
  | update (bid : String) (name slug desc website logo : Option String)
  | del (bid : String) (really : Bool)

/-- The dispatch inside the `try` of one `admin_brands` iteration. -/
def admin_brands_body (c : ApiClient) : BrandsAction → M Unit
  | .list q page pageSize =>
    mbind (c.list_brands page pageSize q) prettyM
  | .create name slug desc website logo =>
    let payload := [("name", Json.str name)]
    let payload := addStrIf payload "slug" slug
    let payload := addStrIf payload "description" desc
    let payload := addStrIf payload "website" website
    let payload := addStrIf payload "logoUrl" logo
    mbind (c.create_brand payload) prettyM
  | .update bid name slug desc website logo =>
    let p : List (String × Json) := []
    let p := addIfSome p "name" name
    let p := addIfSome p "slug" slug
    let p := addIfSome p "description" desc
    let p := addIfSome p "website" website
    let p := addIfSome p "logoUrl" logo
    mbind (c.update_brand bid p) prettyM
  | .del bid really =>
    if really then mbind (c.delete_brand bid) prettyM else mret ()

/-- One iteration of the `admin_brands` menu loop. -/
def admin_brands_step (c : ApiClient) (a : BrandsAction) : M Unit :=
  menuTry (admin_brands_body c a)

/-- A choice in the `Catalog / Cart / Checkout` menu with its prompts. -/
inductive CatalogCartAction where
  | products (page pageSize : Int) (sort : String)
  | productBySlug (slug : String)
  | cartGet
  | cartClear
  | cartAdd (vid : String) (qty : Int)
  | cartSetQty (iid : String) (qty : Int)
  | cartRemove (iid : String)
  | applyCoupon (code : String)
  | removeCoupon
  | checkoutGuest (email : String)

/-- The dispatch inside the `try` of one `catalog_cart` iteration. -/
def catalog_cart_body (c : ApiClient) : CatalogCartAction → M Unit
  | .products page pageSize sort =>
    mbind (c.catalog_products page pageSize "" "" "" sort none none) prettyM
  | .productBySlug slug => mbind (c.catalog_product slug) prettyM
  | .cartGet => mbind c.cart_get prettyM
  | .cartClear => mbind c.cart_clear prettyM
  | .cartAdd vid qty => mbind (c.cart_add_item vid qty) prettyM
  | .cartSetQty iid qty => mbind (c.cart_update_item iid qty) prettyM
  | .cartRemove iid => mbind (c.cart_delete_item iid) prettyM
  | .applyCoupon code => mbind (c.cart_apply_coupon code) prettyM
  | .removeCoupon => mbind c.cart_remove_coupon prettyM
  | .checkoutGuest email =>
    mbind (c.checkout (if email == "" then none else some email)
      "manual" true none none) prettyM

/-- One iteration of the `catalog_cart` menu loop. -/
def catalog_cart_step (c : ApiClient) (a : CatalogCartAction) : M Unit :=
  menuTry (catalog_cart_body c a)

/-- The methods defined in the body of `class ApiClient`. -/
def apiClientMethods : List String :=
  ["__init__", "_save_cookies", "request",
   "register", "login", "me", "logout",
   "list_brands", "create_brand", "update_brand", "delete_brand",
   "find_brand", "ensure_brand",
   "list_categories", "create_category", "update_category", "delete_category",
   "find_category", "ensure_category",
   "list_products", "create_product", "update_product", "delete_product",
   "get_product", "find_product", "ensure_product",
   "list_options", "add_option",
   "list_variants", "generate_variants", "create_combinations",
   "update_variant", "delete_variant",
   "set_stock", "delta_stock",
   "catalog_products", "catalog_product", "catalog_categories",
   "catalog_brands",
   "cart_get", "cart_clear", "cart_add_item", "cart_update_item",
   "cart_delete_item", "cart_apply_coupon", "cart_remove_coupon",
   "checkout"]

def attrErrMsg (n : String) : String :=
  "AttributeError: ApiClient object has no attribute " ++ n

/-- Python attribute resolution on an `ApiClient` instance: it succeeds iff
the class defines the method; on a missing attribute an `AttributeError` is
raised before any call argument is evaluated. -/
def pyGetattr (n : String) : M Unit :=
  if apiClientMethods.contains n then mret ()
  else mthrow (.pyError (attrErrMsg n))

/-- A choice in the `Admin / Coupons` menu with its prompts. -/
inductive CouponsAction where
  | list (q : String) (page pageSize : Int)
  | create (raw : String)
  | update (cid raw : String)
  | del (cid : String) (really : Bool)

/-- The dispatch inside the `try` of one `admin_coupons` iteration.  Every
branch begins with the attribute lookup of the (undefined) client method,
which raises before the call itself could be modelled. -/
def admin_coupons_body : CouponsAction → M Unit
  | .list _ _ _ => mbind (pyGetattr "admin_list_coupons") fun _ => mret ()
  | .create _ => mbind (pyGetattr "admin_create_coupon") fun _ => mret ()
  | .update _ _ => mbind (pyGetattr "admin_update_coupon") fun _ => mret ()
  | .del _ really =>
    if really then mbind (pyGetattr "admin_delete_coupon") fun _ => mret ()
    else mret ()

def admin_coupons_step (a : CouponsAction) : M Unit :=
  menuTry (admin_coupons_body a)

/-- A choice in the `Admin / Orders & Stats` menu with its prompts. -/
inductive OrdersStatsAction where
  | list (page pageSize : Int) (status q : String)
  | get (oid : String)
  | update (oid raw : String)
  | stats

/-- The dispatch inside the `try` of one `admin_orders_stats` iteration. -/
def admin_orders_stats_body : OrdersStatsAction → M Unit
  | .list _ _ _ _ => mbind (pyGetattr "admin_orders") fun _ => mret ()
  | .get _ => mbind (pyGetattr "admin_order_get") fun _ => mret ()
  | .update _ _ => mbind (pyGetattr "admin_order_update") fun _ => mret ()
  | .stats => mbind (pyGetattr "admin_stats") fun _ => mret ()

def admin_orders_stats_step (a : OrdersStatsAction) : M Unit :=
  menuTry (admin_orders_stats_body a)

/-- A choice in the `Account` menu with its prompts. -/
inductive AccountAction where
  | orders
  | get (oid : String)

/-- The dispatch inside the `try` of one `account_menu` iteration. -/
def account_menu_body : AccountAction → M Unit
  | .orders => mbind (pyGetattr "account_orders") fun _ => mret ()
  | .get _ => mbind (pyGetattr "account_order_get") fun _ => mret ()

def account_menu_step (a : AccountAction) : M Unit :=
  menuTry (account_menu_body a)

/-! ### Concrete fixtures for witnesses and counterexamples -/

def st0 : St := ⟨[], [], []⟩

def jarX : Jar := [("sid", "x")]

/-- A quiet client without a cookie file, against a given environment. -/
def quietClient (e : Env) : ApiClient :=
  { base_url := "", cookie_file := none, verbose := false, saveFails := false,
    saveErrMsg := "", env := e }

/-- A 404 whose decoded body is the JSON array `[1, 2]`. -/
def respArr : HttpResp :=
  { status := 404, text := "[1, 2]", jsonBody := some (.arr [.num 1, .num 2]),
    jarAfter := [] }

def cArr : ApiClient := quietClient fun _ => .ok respArr

/-- A 200 whose body is a JSON object, setting a session cookie. -/
def respOkObj : HttpResp :=
  { status := 200, text := "", jsonBody := some (.obj [("ok", .bool true)]),
    jarAfter := jarX }

def cOk : ApiClient := quietClient fun _ => .ok respOkObj

/-- A 500 whose decoded body is a JSON object. -/
def respErrObj : HttpResp :=
  { status := 500, text := "", jsonBody := some (.obj [("error", .str "boom")]),
    jarAfter := [] }

def cErrObj : ApiClient := quietClient fun _ => .ok respErrObj

/-- A 404 whose body is not valid JSON. -/
def resp404 : HttpResp :=
  { status := 404, text := "nope", jsonBody := none, jarAfter := jarX }

def c404 : ApiClient := quietClient fun _ => .ok resp404

/-- An environment whose transport always fails. -/
def cDown : ApiClient := quietClient fun _ => .error "connection refused"

/-- Clients with a configured cookie file. -/
def cSave : ApiClient :=
  { base_url := "", cookie_file := some "admin.cookies", verbose := false,
    saveFails := false, saveErrMsg := "", env := fun _ => .ok resp404 }

def cSaveOk : ApiClient :=
  { base_url := "", cookie_file := some "admin.cookies", verbose := false,
    saveFails := false, saveErrMsg := "", env := fun _ => .ok respOkObj }

def cSaveFail : ApiClient :=
  { base_url := "", cookie_file := some "admin.cookies", verbose := false,
    saveFails := true, saveErrMsg := "disk full", env := fun _ => .ok respOkObj }

/-- One existing brand record as the list endpoint would return it. -/
def brandOrbit : Json :=
  .obj [("id", .str "b1"), ("slug", .str "orbit"), ("name", .str "Orbit")]

/-- Creation fails with a 400 whose body is the bare string
`Slug already exists`; listing succeeds and contains the matching brand. -/
def respConflictCreate : HttpResp :=
  { status := 400, text := "Slug already exists",
    jsonBody := some (.str "Slug already exists"), jarAfter := [] }

def respBrandList : HttpResp :=
  { status := 200, text := "",
    jsonBody := some (.obj [("items", .arr [brandOrbit])]), jarAfter := [] }

def cC3 : ApiClient := quietClient fun r =>
  if r.method == "POST" then .ok respConflictCreate else .ok respBrandList

/-! ## Helper lemmas -/

theorem hasSublist_append (a sub b : List Char) :
    hasSublist (a ++ (sub ++ b)) sub = true := by
  induction a with
  | nil =>
    simp only [List.nil_append]
    cases hsb : sub ++ b with
    | nil =>
      have hs : sub = [] := (List.append_eq_nil.mp hsb).1
      subst hs; rfl
    | cons c t =>
      simp only [hasSublist]
      rw [← hsb]
      have hp : sub.isPrefixOf (sub ++ b) = true := by
        rw [List.isPrefixOf_iff_prefix]
        exact List.prefix_append _ _
      simp [hp]
  | cons x a ih =>
    simp only [List.cons_append, hasSublist, List.append_eq]
    rw [ih]
    simp

theorem strContains_middle (pre mid post : String) :
    strContains (pre ++ (mid ++ post)) mid = true := by
  simp only [strContains, String.data_append]
  exact hasSublist_append pre.data mid.data post.data

theorem strContains_of_parts (pre mid post : String) {s : String}
    (h : s = pre ++ (mid ++ post)) : strContains s mid = true := by
  rw [h]; exact strContains_middle pre mid post

theorem dget_dset_self {α : Type} (d : List (String × α)) (k : String) (v : α) :
    dget (dset d k v) k = some v := by
  induction d with
  | nil => simp [dset, dget]
  | cons kv rest ih =>
    by_cases h : kv.1 == k
    · simp [dset, dget, h]
    · simp only [Bool.not_eq_true] at h
      simp [dset, dget, h, ih]

theorem dget_dset_ne {α : Type} (d : List (String × α)) {k k' : String}
    (v : α) (h : (k == k') = false) :
    dget (dset d k v) k' = dget d k' := by
  induction d with
  | nil => simp [dset, dget, h]
  | cons kv rest ih =>
    cases hk : kv.1 == k with
    | true =>
      have hkk : kv.1 = k := eq_of_beq hk
      have hne : (kv.1 == k') = false := by rw [hkk]; exact h
      simp [dset, dget, hk, hne]
    | false =>
      cases hkv : kv.1 == k' with
      | true => simp [dset, dget, hk, hkv]
      | false => simp [dset, dget, hk, hkv, ih]

theorem hasKey_dset_ne {α : Type} (d : List (String × α)) {k k' : String}
    (v : α) (h : (k == k') = false) :
    hasKey (dset d k v) k' = hasKey d k' := by
  simp [hasKey, dget_dset_ne d v h]

theorem hasKey_addIfTruthy_ne (d : List (String × Json)) {k k' : String}
    (v : Option String) (h : (k == k') = false) :
    hasKey (addIfTruthy d k v) k' = hasKey d k' := by
  cases v with
  | none => rfl
  | some s =>
    simp only [addIfTruthy]
    cases hs : s != "" with
    | true => simp [hs, hasKey_dset_ne d _ h]
    | false => simp [hs]

theorem hasKey_addIfSome_ne (d : List (String × Json)) {k k' : String}
    (v : Option String) (h : (k == k') = false) :
    hasKey (addIfSome d k v) k' = hasKey d k' := by
  cases v with
  | none => rfl
  | some s => simp only [addIfSome]; exact hasKey_dset_ne d _ h

theorem hasKey_addIfSomeInt_ne (d : List (String × Json)) {k k' : String}
    (v : Option Int) (h : (k == k') = false) :
    hasKey (addIfSomeInt d k v) k' = hasKey d k' := by
  cases v with
  | none => rfl
  | some n => simp only [addIfSomeInt]; exact hasKey_dset_ne d _ h

theorem hasKey_addIfSomeBool_ne (d : List (String × Json)) {k k' : String}
    (v : Option Bool) (h : (k == k') = false) :
    hasKey (addIfSomeBool d k v) k' = hasKey d k' := by
  cases v with
  | none => rfl
  | some b => simp only [addIfSomeBool]; exact hasKey_dset_ne d _ h

theorem hasKey_addImagesIf_ne (d : List (String × Json)) (v : Option String)
    {k' : String} (h : ("images" == k') = false) :
    hasKey (addImagesIf d v) k' = hasKey d k' := by
  cases v with
  | none => rfl
  | some u => simp only [addImagesIf]; exact hasKey_dset_ne d _ h

theorem hasKey_addCategoryIdsIf_ne (d : List (String × Json))
    (v : Option (List String)) {k' : String}
    (h : ("categoryIds" == k') = false) :
    hasKey (addCategoryIdsIf d v) k' = hasKey d k' := by
  cases v with
  | none => rfl
  | some ids => simp only [addCategoryIdsIf]; exact hasKey_dset_ne d _ h

theorem hasKey_addDefaultIf_ne (d : List (String × Json)) (b : Bool)
    {k' : String} (h : ("isDefault" == k') = false) :
    hasKey (addDefaultIf d b) k' = hasKey d k' := by
  cases b with
  | false => rfl
  | true => simp only [addDefaultIf, if_true]; exact hasKey_dset_ne d _ h

theorem hasKey_nil {α : Type} (k : String) :
    hasKey ([] : List (String × α)) k = false := rfl

theorem addIfTruthy_none (d : List (String × Json)) (k : String) :
    addIfTruthy d k none = d := rfl

theorem addIfSome_none (d : List (String × Json)) (k : String) :
    addIfSome d k none = d := rfl

theorem addIfSomeInt_none (d : List (String × Json)) (k : String) :
    addIfSomeInt d k none = d := rfl

theorem addIfSomeBool_none (d : List (String × Json)) (k : String) :
    addIfSomeBool d k none = d := rfl

theorem addImagesIf_none (d : List (String × Json)) :
    addImagesIf d none = d := rfl

theorem addCategoryIdsIf_none (d : List (String × Json)) :
    addCategoryIdsIf d none = d := rfl

theorem addDefaultIf_false (d : List (String × Json)) :
    addDefaultIf d false = d := rfl

theorem ifPushOut_disk (b : Bool) (st : St) (s : String) :
    (if b then pushOut st s else st).disk = st.disk := by
  cases b with
  | false => rfl
  | true => rfl

theorem ifPushOut_log (b : Bool) (st : St) (s : String) :
    (if b then pushOut st s else st).log = st.log := by
  cases b with
  | false => rfl
  | true => rfl

theorem saveDisk_log (c : ApiClient) (jar : Jar) (st : St) :
    (saveDisk c jar st).log = st.log := by
  unfold saveDisk
  cases c.cookie_file with
  | none => rfl
  | some path =>
    cases c.saveFails with
    | true => exact ifPushOut_log _ _ _
    | false => exact ifPushOut_log _ _ _

/-! ## Claims about `ApiClient.request` -/

/-- Claim C1, amended.  For every HTTP response with a status code outside
[200, 300), `ApiClient.request` raises an `ApiError` and never returns the
body as a success result.  The error message carries the HTTP status, the
method, the path, and a copy of the decoded body; that copy is the
`json.dumps(..., indent=2)` pretty-printed form when the decoded body is a
JSON object, and the plain string form of the body otherwise (in particular
the raw text when JSON decoding failed).  The original claim promised a
pretty-printed copy for every body; `C1_counterexample` refutes that for a
JSON array body. -/
theorem C1_request_non2xx_raises :
    ∀ (c : ApiClient) (m p : String) (ps : List (String × Json))
      (b : Option Json) (st : St) (resp : HttpResp),
      c.env (mkReq c m p ps b) = .ok resp →
      ¬ (200 ≤ resp.status ∧ resp.status < 300) →
      (runM (c.request m p ps b) st).1 =
          .error (.apiError ⟨errMsg m p resp.status (decodeBody resp)⟩) ∧
        errMsg m p resp.status (decodeBody resp) =
          "HTTP " ++ toString resp.status ++ " for " ++ m ++ " " ++ p ++
            ": " ++ errBody (decodeBody resp) ∧
        strContains (errMsg m p resp.status (decodeBody resp))
          (toString resp.status) = true ∧
        strContains (errMsg m p resp.status (decodeBody resp)) m = true ∧
        strContains (errMsg m p resp.status (decodeBody resp)) p = true ∧
        (∀ fs, decodeBody resp = .json (.obj fs) →
          strContains (errMsg m p resp.status (decodeBody resp))
            (dumps2 0 (.obj fs)) = true) ∧
        (∀ s, decodeBody resp = .text s →
          strContains (errMsg m p resp.status (decodeBody resp)) s = true) := by
  intro c m p ps b st resp henv hst
  refine ⟨?_, rfl, ?_, ?_, ?_, ?_, ?_⟩
  · simp only [runM, ApiClient.request, henv]
    rw [if_neg hst]
  · exact strContains_of_parts "HTTP " (toString resp.status)
      (" for " ++ m ++ " " ++ p ++ ": " ++ errBody (decodeBody resp))
      (by simp [errMsg, String.append_assoc])
  · exact strContains_of_parts ("HTTP " ++ toString resp.status ++ " for ") m
      (" " ++ p ++ ": " ++ errBody (decodeBody resp))
      (by simp [errMsg, String.append_assoc])
  · exact strContains_of_parts
      ("HTTP " ++ toString resp.status ++ " for " ++ m ++ " ") p
      (": " ++ errBody (decodeBody resp))
      (by simp [errMsg, String.append_assoc])
  · intro fs hfs
    exact strContains_of_parts
      ("HTTP " ++ toString resp.status ++ " for " ++ m ++ " " ++ p ++ ": ")
      (dumps2 0 (.obj fs)) ""
      (by simp [errMsg, hfs, errBody, String.append_assoc])
  · intro s hs
    exact strContains_of_parts
      ("HTTP " ++ toString resp.status ++ " for " ++ m ++ " " ++ p ++ ": ")
      s "" (by simp [errMsg, hs, errBody, String.append_assoc])

/-- Witness for C1 at a concrete client: a 500 response with a JSON object
body makes `request` raise the `ApiError` carrying the message. -/
theorem C1_request_non2xx_raises_witness :
    (runM (cErrObj.request "GET" "/api/auth/me" [] none) st0).1 =
      .error (.apiError ⟨errMsg "GET" "/api/auth/me" 500
        (decodeBody respErrObj)⟩) :=
  (C1_request_non2xx_raises cErrObj "GET" "/api/auth/me" [] none st0 respErrObj
    rfl (by decide)).1

/-- Counterexample to C1 as stated: for a 404 whose decoded body is the JSON
array `[1, 2]`, the raised message interpolates the Python `str` of the list,
`[1, 2]`, and does not contain the `json.dumps(..., indent=2)` pretty-printed
copy of the decoded body. -/
theorem C1_counterexample :
    (runM (cArr.request "GET" "/x" [] none) st0).1 =
      .error (.apiError ⟨"HTTP 404 for GET /x: [1, 2]"⟩) ∧
    decodeBody respArr = .json (.arr [.num 1, .num 2]) ∧
    dumps2 0 (.arr [.num 1, .num 2]) = "[\n  1,\n  2\n]" ∧
    strContains "HTTP 404 for GET /x: [1, 2]" "[\n  1,\n  2\n]" = false := by
  refine ⟨?_, rfl, ?_, by decide⟩
  · have hbody : errMsg "GET" "/x" respArr.status (decodeBody respArr) =
        "HTTP 404 for GET /x: [1, 2]" := by
      simp only [errMsg, errBody, decodeBody, respArr, pyStrTop, pyRepr,
        pyReprArr]
      rfl
    have h := (C1_request_non2xx_raises cArr "GET" "/x" [] none st0 respArr
      rfl (by decide)).1
    rw [hbody] at h
    exact h
  · simp only [dumps2, dumps2Arr, spaces]
    rfl

/-- Claim C2.  For every 2xx response, `ApiClient.request` returns the body
parsed as JSON when the body is valid JSON, and the raw response text
unchanged when JSON parsing fails, for every HTTP method. -/
theorem C2_request_2xx_parse_fallback :
    ∀ (c : ApiClient) (m p : String) (ps : List (String × Json))
      (b : Option Json) (st : St) (resp : HttpResp),
      c.env (mkReq c m p ps b) = .ok resp →
      200 ≤ resp.status → resp.status < 300 →
      (runM (c.request m p ps b) st).1 = .ok (decodeBody resp) ∧
        (∀ j, resp.jsonBody = some j → decodeBody resp = .json j) ∧
        (resp.jsonBody = none → decodeBody resp = .text resp.text) := by
  intro c m p ps b st resp henv h1 h2
  refine ⟨?_, ?_, ?_⟩
  · simp only [runM, ApiClient.request, henv]
    rw [if_pos ⟨h1, h2⟩]
  · intro j hj; simp [decodeBody, hj]
  · intro hj; simp [decodeBody, hj]

/-- Witness for C2: a PATCH receiving a 200 JSON object returns it parsed,
and a GET receiving a 404 with invalid JSON decodes to the raw text. -/
theorem C2_request_2xx_parse_fallback_witness :
    (runM (cOk.request "PATCH" "/api/cart/items/i1" [] none) st0).1 =
      .ok (decodeBody respOkObj) ∧
    decodeBody respOkObj = .json (.obj [("ok", .bool true)]) ∧
    decodeBody resp404 = .text "nope" :=
  ⟨(C2_request_2xx_parse_fallback cOk "PATCH" "/api/cart/items/i1" [] none st0
      respOkObj rfl (by decide) (by decide)).1,
   (C2_request_2xx_parse_fallback cOk "PATCH" "/api/cart/items/i1" [] none st0
      respOkObj rfl (by decide) (by decide)).2.1 _ rfl, rfl⟩

/-- Claim C8.  When `ApiClient.request` raises an `ApiError` because of a
non-2xx status, the cookie file is not written by that request: the on-disk
cookie state is unchanged. -/
theorem C8_no_cookie_write_on_api_error :
    ∀ (c : ApiClient) (m p : String) (ps : List (String × Json))
      (b : Option Json) (st : St) (resp : HttpResp),
      c.env (mkReq c m p ps b) = .ok resp →
      ¬ (200 ≤ resp.status ∧ resp.status < 300) →
      (runM (c.request m p ps b) st).1 =
          .error (.apiError ⟨errMsg m p resp.status (decodeBody resp)⟩) ∧
        (runM (c.request m p ps b) st).2.disk = st.disk := by
  intro c m p ps b st resp henv hst
  constructor
  · simp only [runM, ApiClient.request, henv]
    rw [if_neg hst]
  · simp only [runM, ApiClient.request, henv]
    rw [if_neg hst]
    exact ifPushOut_disk _ _ _

/-- Witness for C8: a client with a configured cookie file issues a request
answered 404; the request raises and the disk is unchanged. -/
theorem C8_no_cookie_write_on_api_error_witness :
    (runM (cSave.request "GET" "/api/auth/me" [] none) st0).1 =
        .error (.apiError ⟨errMsg "GET" "/api/auth/me" 404
          (decodeBody resp404)⟩) ∧
      (runM (cSave.request "GET" "/api/auth/me" [] none) st0).2.disk =
        st0.disk :=
  C8_no_cookie_write_on_api_error cSave "GET" "/api/auth/me" [] none st0
    resp404 rfl (by decide)

/-! ## Claim C4: cookie persistence -/

theorem saveDisk_disk_some (c : ApiClient) (jar : Jar) (st : St)
    (path : String) (hcf : c.cookie_file = some path)
    (hsf : c.saveFails = false) :
    dget (saveDisk c jar st).disk path = some jar := by
  simp only [saveDisk, hcf, hsf, Bool.false_eq_true, if_false, ifPushOut_disk]
  exact dget_dset_self st.disk path jar

theorem saveDisk_disk_nofile (c : ApiClient) (jar : Jar) (st : St)
    (hcf : c.cookie_file = none) : (saveDisk c jar st).disk = st.disk := by
  simp [saveDisk, hcf]

theorem saveDisk_disk_fail (c : ApiClient) (jar : Jar) (st : St)
    (hsf : c.saveFails = true) : (saveDisk c jar st).disk = st.disk := by
  unfold saveDisk
  cases hcf : c.cookie_file with
  | none => rfl
  | some path => simp [hsf, ifPushOut_disk]

/-- Claim C4, amended.  After every successful (2xx) request, the session
cookie jar is serialized to the configured cookie file (a no-op when no file
is configured); a failure while saving is swallowed and the request result is
still returned.  On a non-2xx or transport-failed request the jar is not
saved; `C4_counterexample` refutes the original after-every-request claim. -/
theorem C4_cookie_save_on_success :
    ∀ (c : ApiClient) (m p : String) (ps : List (String × Json))
      (b : Option Json) (st : St) (resp : HttpResp),
      c.env (mkReq c m p ps b) = .ok resp →
      200 ≤ resp.status → resp.status < 300 →
      (runM (c.request m p ps b) st).1 = .ok (decodeBody resp) ∧
        (∀ path, c.cookie_file = some path → c.saveFails = false →
          dget (runM (c.request m p ps b) st).2.disk path =
            some resp.jarAfter) ∧
        (c.cookie_file = none →
          (runM (c.request m p ps b) st).2.disk = st.disk) ∧
        (c.saveFails = true →
          (runM (c.request m p ps b) st).2.disk = st.disk) := by
  intro c m p ps b st resp henv h1 h2
  refine ⟨?_, ?_, ?_, ?_⟩
  · simp only [runM, ApiClient.request, henv]
    rw [if_pos ⟨h1, h2⟩]
  · intro path hcf hsf
    simp only [runM, ApiClient.request, henv]
    rw [if_pos ⟨h1, h2⟩]
    exact saveDisk_disk_some c resp.jarAfter _ path hcf hsf
  · intro hcf
    simp only [runM, ApiClient.request, henv]
    rw [if_pos ⟨h1, h2⟩]
    rw [saveDisk_disk_nofile c resp.jarAfter _ hcf]
    exact ifPushOut_disk _ _ _
  · intro hsf
    simp only [runM, ApiClient.request, henv]
    rw [if_pos ⟨h1, h2⟩]
    rw [saveDisk_disk_fail c resp.jarAfter _ hsf]
    exact ifPushOut_disk _ _ _

/-- Witness for C4: a successful login against a cookie-file client leaves
the jar on disk; with a failing save the result is still returned and the
disk is unchanged. -/
theorem C4_cookie_save_on_success_witness :
    dget (runM (cSaveOk.request "POST" "/api/auth/login" [] none) st0).2.disk
        "admin.cookies" = some respOkObj.jarAfter ∧
      (runM (cSaveFail.request "POST" "/api/auth/login" [] none) st0).2.disk =
        st0.disk ∧
      (runM (cSaveFail.request "POST" "/api/auth/login" [] none) st0).1 =
        .ok (decodeBody respOkObj) :=
  ⟨(C4_cookie_save_on_success cSaveOk "POST" "/api/auth/login" [] none st0
      respOkObj rfl (by decide) (by decide)).2.1 "admin.cookies" rfl rfl,
   (C4_cookie_save_on_success cSaveFail "POST" "/api/auth/login" [] none st0
      respOkObj rfl (by decide) (by decide)).2.2.2 rfl,
   (C4_cookie_save_on_success cSaveFail "POST" "/api/auth/login" [] none st0
      respOkObj rfl (by decide) (by decide)).1⟩

/-- Counterexample to C4 as stated: a request answered 404 by a client with a
configured cookie file and a response that sets a session cookie leaves the
cookie file unwritten, so the jar is not serialized after every request. -/
theorem C4_counterexample :
    cSave.cookie_file = some "admin.cookies" ∧
    resp404.jarAfter = jarX ∧
    (runM (cSave.request "GET" "/api/auth/me" [] none) st0).2.disk = [] ∧
    dget (runM (cSave.request "GET" "/api/auth/me" [] none) st0).2.disk
      "admin.cookies" = none := ⟨rfl, rfl, rfl, rfl⟩

/-! ## Claim C9: lookup helpers with an absent query -/

/-- Claim C9.  `find_brand` (and `find_product`) with both lookup keys absent
or empty return `None` without issuing any HTTP request and without touching
any state; `find_category` issues its list request even then. -/
theorem C9_find_absent_query_frame :
    (∀ (c : ApiClient) (slug name : Option String) (st : St),
      (slug = none ∨ slug = some "") → (name = none ∨ name = some "") →
      runM (c.find_brand slug name) st = (.ok none, st)) ∧
    (∀ (c : ApiClient) (slug title : Option String) (st : St),
      (slug = none ∨ slug = some "") → (title = none ∨ title = some "") →
      runM (c.find_product slug title) st = (.ok none, st)) ∧
    (∀ (c : ApiClient) (slug name parent_id : Option String) (st : St),
      (runM (c.find_category slug name parent_id) st).2.log =
        st.log ++ [mkReq c "GET" "/api/admin/categories"
          (listCategoriesParams 1 100 (qOf slug name) parent_id) none]) := by
  refine ⟨?_, ?_, ?_⟩
  · intro c slug name st hs hn
    rcases hs with rfl | rfl
    · rcases hn with rfl | rfl
      · rfl
      · rfl
    · rcases hn with rfl | rfl
      · rfl
      · rfl
  · intro c slug title st hs ht
    rcases hs with rfl | rfl
    · rcases ht with rfl | rfl
      · rfl
      · rfl
    · rcases ht with rfl | rfl
      · rfl
      · rfl
  · intro c slug name parent_id st
    simp only [runM, ApiClient.find_category, ApiClient.list_categories,
      mbind, mret, ApiClient.request]
    cases henv : c.env (mkReq c "GET" "/api/admin/categories"
        (listCategoriesParams 1 100 (qOf slug name) parent_id) none) with
    | error m => simp [henv]
    | ok resp =>
      simp only [henv]
      by_cases h2 : 200 ≤ resp.status ∧ resp.status < 300
      · rw [if_pos h2]
        simp only
        rw [saveDisk_log, ifPushOut_log]
      · rw [if_neg h2]
        simp only
        rw [ifPushOut_log]

/-- Witness for C9 at concrete inputs: absent and empty keys return `None`
with the state untouched. -/
theorem C9_find_absent_query_frame_witness :
    runM (cOk.find_brand none none) st0 = (.ok none, st0) ∧
    runM (cOk.find_product none (some "")) st0 = (.ok none, st0) :=
  ⟨C9_find_absent_query_frame.1 cOk none none st0 (Or.inl rfl) (Or.inl rfl),
   C9_find_absent_query_frame.2.1 cOk none (some "") st0 (Or.inl rfl)
     (Or.inr rfl)⟩

/-! ## Claim C6: CLI exit codes -/

theorem pyMain_fst (action : M Unit) (st : St) :
    (pyMain action st).1 =
      match (runM action st).1 with
      | .ok _ => 0
      | .error (.apiError _) => 2
      | .error (.netError _) => 3
      | .error (.pyError _) => 1 := by
  cases h : action st with
  | mk r st' =>
    cases r with
    | ok a => simp [pyMain, runM, h]
    | error f =>
      cases f with
      | apiError e => simp [pyMain, runM, h]
      | netError m => simp [pyMain, runM, h]
      | pyError m => simp [pyMain, runM, h]

/-- Claim C6.  A CLI invocation exits 0 when the dispatched action completes
without error, 2 when an `ApiError` reaches the top-level dispatch, and 3
when a transport failure reaches it. -/
theorem C6_cli_exit_codes :
    ∀ (action : M Unit) (st : St),
      ((runM action st).1 = .ok () → (pyMain action st).1 = 0) ∧
        (∀ e, (runM action st).1 = .error (.apiError e) →
          (pyMain action st).1 = 2) ∧
        (∀ m, (runM action st).1 = .error (.netError m) →
          (pyMain action st).1 = 3) := by
  intro action st
  refine ⟨?_, ?_, ?_⟩
  · intro h; rw [pyMain_fst, h]
  · intro e h; rw [pyMain_fst, h]
  · intro m h; rw [pyMain_fst, h]

/-- Witness for C6: the `me` action run against a 200, a 404, and a dead
server exits 0, 2 and 3 respectively. -/
theorem C6_cli_exit_codes_witness :
    (pyMain (act_me cOk) st0).1 = 0 ∧
    (pyMain (act_me c404) st0).1 = 2 ∧
    (pyMain (act_me cDown) st0).1 = 3 :=
  ⟨(C6_cli_exit_codes (act_me cOk) st0).1 rfl,
   (C6_cli_exit_codes (act_me c404) st0).2.1 _ rfl,
   (C6_cli_exit_codes (act_me cDown) st0).2.2 _ rfl⟩

/-! ## Claim C3: idempotent ensure helpers -/

/-- Claim C3, amended.  Each `ensure_*` helper first attempts direct
creation and returns its result on success.  When creation raises an
`ApiError` whose message is conflict-class, it looks the record up (by slug
then by name per item, parent-scoped for categories) and returns the first
match, re-raising the original error when the lookup finds nothing; a
non-conflict error is re-raised immediately.  The conflict class of
`ensure_brand` and `ensure_category` is a message containing `409` or
`Conflict` only; only `ensure_product` additionally accepts
`Slug already exists` (the original claim gave all three helpers the wider
class; `C3_counterexample` refutes that for `ensure_brand`). -/
theorem C3_ensure_conflict_fallback :
    (∀ (c : ApiClient) (name : String) (slug : Option String)
      (kwargs : List (String × Json)) (st : St),
      runM (c.ensure_brand name slug kwargs) st =
        match runM (c.create_brand (ensureBrandPayload name slug kwargs)) st with
        | (.ok d, st1) => (.ok d, st1)
        | (.error (.apiError e), st1) =>
          if isConflictMsg e.msg then
            match runM (c.find_brand slug (some name)) st1 with
            | (.ok (some it), st2) =>
              runM (useExisting "ensure_brand" "brand" c it) st2
            | (.ok none, st2) => (.error (.apiError e), st2)
            | (.error f, st2) => (.error f, st2)
          else (.error (.apiError e), st1)
        | (.error f, st1) => (.error f, st1)) ∧
    (∀ (c : ApiClient) (name : String) (slug parentId : Option String)
      (kwargs : List (String × Json)) (st : St),
      runM (c.ensure_category name slug parentId kwargs) st =
        match runM (c.create_category
            (ensureCategoryPayload name slug parentId kwargs)) st with
        | (.ok d, st1) => (.ok d, st1)
        | (.error (.apiError e), st1) =>
          if isConflictMsg e.msg then
            match runM (c.find_category slug (some name) parentId) st1 with
            | (.ok (some it), st2) =>
              runM (useExisting "ensure_category" "category" c it) st2
            | (.ok none, st2) => (.error (.apiError e), st2)
            | (.error f, st2) => (.error f, st2)
          else (.error (.apiError e), st1)
        | (.error f, st1) => (.error f, st1)) ∧
    (∀ (c : ApiClient) (title : String) (slug : Option String)
      (kwargs : List (String × Json)) (st : St),
      runM (c.ensure_product title slug kwargs) st =
        match runM (c.create_product
            (ensureProductPayload title slug kwargs)) st with
        | (.ok d, st1) => (.ok d, st1)
        | (.error (.apiError e), st1) =>
          if isConflictMsgProd e.msg then
            match runM (c.find_product slug (some title)) st1 with
            | (.ok (some it), st2) =>
              runM (useExisting "ensure_product" "product" c it) st2
            | (.ok none, st2) => (.error (.apiError e), st2)
            | (.error f, st2) => (.error f, st2)
          else (.error (.apiError e), st1)
        | (.error f, st1) => (.error f, st1)) := by
  refine ⟨?_, ?_, ?_⟩
  · intro c name slug kwargs st
    simp only [runM, ApiClient.ensure_brand, mtry]
    cases hc : c.create_brand (ensureBrandPayload name slug kwargs) st with
    | mk r st1 =>
      cases r with
      | ok d => rfl
      | error f =>
        cases f with
        | apiError e =>
          cases hconf : isConflictMsg e.msg with
          | true =>
            simp only [hconf, if_true]
            simp only [mbind]
            cases hf : c.find_brand slug (some name) st1 with
            | mk rf st2 =>
              cases rf with
              | ok o => cases o with
                | some it => rfl
                | none => rfl
              | error f2 => rfl
          | false => simp [hconf, mthrow]
        | netError m => rfl
        | pyError m => rfl
  · intro c name slug parentId kwargs st
    simp only [runM, ApiClient.ensure_category, mtry]
    cases hc : c.create_category
        (ensureCategoryPayload name slug parentId kwargs) st with
    | mk r st1 =>
      cases r with
      | ok d => rfl
      | error f =>
        cases f with
        | apiError e =>
          cases hconf : isConflictMsg e.msg with
          | true =>
            simp only [hconf, if_true]
            simp only [mbind]
            cases hf : c.find_category slug (some name) parentId st1 with
            | mk rf st2 =>
              cases rf with
              | ok o => cases o with
                | some it => rfl
                | none => rfl
              | error f2 => rfl
          | false => simp [hconf, mthrow]
        | netError m => rfl
        | pyError m => rfl
  · intro c title slug kwargs st
    simp only [runM, ApiClient.ensure_product, mtry]
    cases hc : c.create_product (ensureProductPayload title slug kwargs) st with
    | mk r st1 =>
      cases r with
      | ok d => rfl
      | error f =>
        cases f with
        | apiError e =>
          cases hconf : isConflictMsgProd e.msg with
          | true =>
            simp only [hconf, if_true]
            simp only [mbind]
            cases hf : c.find_product slug (some title) st1 with
            | mk rf st2 =>
              cases rf with
              | ok o => cases o with
                | some it => rfl
                | none => rfl
              | error f2 => rfl
          | false => simp [hconf, mthrow]
        | netError m => rfl
        | pyError m => rfl

/-- Counterexample to C3 as stated: a brand creation failing with
`HTTP 400 ... Slug already exists` is conflict-class under the claim (the
message contains `Slug already exists`), and the lookup would find the
matching brand, yet `ensure_brand` re-raises the creation error instead of
returning the match, because its own conflict check accepts only `409` and
`Conflict`. -/
theorem C3_counterexample :
    (runM (cC3.ensure_brand "Orbit" (some "orbit") []) st0).1 =
      .error (.apiError
        ⟨"HTTP 400 for POST /api/admin/brands: Slug already exists"⟩) ∧
    strContains "HTTP 400 for POST /api/admin/brands: Slug already exists"
      "Slug already exists" = true ∧
    isConflictMsg "HTTP 400 for POST /api/admin/brands: Slug already exists" =
      false ∧
    (runM (cC3.find_brand (some "orbit") (some "Orbit")) st0).1 =
      .ok (some brandOrbit) := ⟨rfl, rfl, rfl, rfl⟩

/-! ## Claim C7: interactive menu error handling -/

/-- Claim C7, amended.  For every action of the embedded `admin_brands` and
`catalog_cart` menus, an `ApiError` raised by the underlying client call is
printed and control returns to the current menu; a transport error, however,
is not caught by the menu handler and propagates out of the menu loop,
terminating the interactive process (`C7_counterexample` exhibits the crash
the original claim denied). -/
theorem C7_menu_error_handling :
    (∀ (c : ApiClient) (a : BrandsAction) (st : St),
      runM (admin_brands_step c a) st =
        match runM (admin_brands_body c a) st with
        | (.ok _, st') => (.ok (), st')
        | (.error (.apiError e), st') => (.ok (), pushOut st' e.msg)
        | (.error f, st') => (.error f, st')) ∧
    (∀ (c : ApiClient) (a : CatalogCartAction) (st : St),
      runM (catalog_cart_step c a) st =
        match runM (catalog_cart_body c a) st with
        | (.ok _, st') => (.ok (), st')
        | (.error (.apiError e), st') => (.ok (), pushOut st' e.msg)
        | (.error f, st') => (.error f, st')) := by
  constructor
  · intro c a st
    simp only [runM, admin_brands_step, menuTry]
  · intro c a st
    simp only [runM, catalog_cart_step, menuTry]

/-- Counterexample to C7 as stated: with the transport failing, the brand
list action and the cart view action both propagate the transport error out
of their menu loops, while the same actions answered by an HTTP 404 are
caught and return control to the menu. -/
theorem C7_counterexample :
    (runM (admin_brands_step cDown (.list "" 1 20)) st0).1 =
      .error (.netError "connection refused") ∧
    (runM (catalog_cart_step cDown .cartGet) st0).1 =
      .error (.netError "connection refused") ∧
    (runM (admin_brands_step c404 (.list "" 1 20)) st0).1 = .ok () ∧
    (runM (catalog_cart_step c404 .cartGet) st0).1 = .ok () :=
  ⟨rfl, rfl, rfl, rfl⟩

/-! ## Claim C10: menus calling methods `ApiClient` does not define -/

/-- Claim C10, amended.  Every action of the Coupons, Orders & Stats, and
Account menus names an `ApiClient` method that the class does not define, so
selecting one raises an `AttributeError` that the menu handler (which catches
only `ApiError`) lets propagate — except the coupon delete action when its
confirmation prompt is declined, in which case no client method is invoked
and control returns to the menu (`C10_counterexample`). -/
theorem C10_missing_admin_methods :
    (apiClientMethods.contains "admin_list_coupons" = false ∧
     apiClientMethods.contains "admin_create_coupon" = false ∧
     apiClientMethods.contains "admin_update_coupon" = false ∧
     apiClientMethods.contains "admin_delete_coupon" = false ∧
     apiClientMethods.contains "admin_orders" = false ∧
     apiClientMethods.contains "admin_order_get" = false ∧
     apiClientMethods.contains "admin_order_update" = false ∧
     apiClientMethods.contains "admin_stats" = false ∧
     apiClientMethods.contains "account_orders" = false ∧
     apiClientMethods.contains "account_order_get" = false) ∧
    (∀ (q : String) (page pageSize : Int) (st : St),
      runM (admin_coupons_step (.list q page pageSize)) st =
        (.error (.pyError (attrErrMsg "admin_list_coupons")), st)) ∧
    (∀ (raw : String) (st : St),
      runM (admin_coupons_step (.create raw)) st =
        (.error (.pyError (attrErrMsg "admin_create_coupon")), st)) ∧
    (∀ (cid raw : String) (st : St),
      runM (admin_coupons_step (.update cid raw)) st =
        (.error (.pyError (attrErrMsg "admin_update_coupon")), st)) ∧
    (∀ (cid : String) (st : St),
      runM (admin_coupons_step (.del cid true)) st =
        (.error (.pyError (attrErrMsg "admin_delete_coupon")), st)) ∧
    (∀ (page pageSize : Int) (status q : String) (st : St),
      runM (admin_orders_stats_step (.list page pageSize status q)) st =
        (.error (.pyError (attrErrMsg "admin_orders")), st)) ∧
    (∀ (oid : String) (st : St),
      runM (admin_orders_stats_step (.get oid)) st =
        (.error (.pyError (attrErrMsg "admin_order_get")), st)) ∧
    (∀ (oid raw : String) (st : St),
      runM (admin_orders_stats_step (.update oid raw)) st =
        (.error (.pyError (attrErrMsg "admin_order_update")), st)) ∧
    (∀ (st : St),
      runM (admin_orders_stats_step .stats) st =
        (.error (.pyError (attrErrMsg "admin_stats")), st)) ∧
    (∀ (st : St),
      runM (account_menu_step .orders) st =
        (.error (.pyError (attrErrMsg "account_orders")), st)) ∧
    (∀ (oid : String) (st : St),
      runM (account_menu_step (.get oid)) st =
        (.error (.pyError (attrErrMsg "account_order_get")), st)) ∧
    (∀ (cid : String) (st : St),
      runM (admin_coupons_step (.del cid false)) st = (.ok (), st)) := by
  refine ⟨⟨rfl, rfl, rfl, rfl, rfl, rfl, rfl, rfl, rfl, rfl⟩,
    ?_, ?_, ?_, ?_, ?_, ?_, ?_, ?_, ?_, ?_, ?_⟩
  · intro q page pageSize st; rfl
  · intro raw st; rfl
  · intro cid raw st; rfl
  · intro cid st; rfl
  · intro page pageSize status q st; rfl
  · intro oid st; rfl
  · intro oid raw st; rfl
  · intro st; rfl
  · intro st; rfl
  · intro oid st; rfl
  · intro cid st; rfl

/-- Counterexample to C10 as stated: selecting the coupon delete action and
declining the confirmation invokes no client method, issues no request, and
raises nothing, so the selection does not always raise an `AttributeError`. -/
theorem C10_counterexample :
    runM (admin_coupons_step (.del "c1" false)) st0 = (.ok (), st0) ∧
    (runM (admin_coupons_step (.del "c1" false)) st0).2.log = [] :=
  ⟨rfl, rfl⟩

/-! ## Claim C5: partial update payloads -/

/-- Claim C5, amended.  For every CLI update action (brands, categories,
products, variant), a field whose flag was not provided never appears in the
serialized request body.  The sentinel of the `nargs="?"` flags is `None`
itself, so a flag given with no value parses to the same `None` as an absent
flag and the field is not sent; what the flags do distinguish is an explicit
empty value, which is sent as the cleared field (the original claim that a
bare flag sends a cleared value is refuted by `C5_counterexample`). -/
theorem C5_update_payload_only_supplied :
    (∀ a : BrandUpdateArgs,
      (a.name = none → hasKey (brandsUpdatePayload a) "name" = false) ∧
      (a.slug = none → hasKey (brandsUpdatePayload a) "slug" = false) ∧
      (a.description = none →
        hasKey (brandsUpdatePayload a) "description" = false) ∧
      (a.website = none → hasKey (brandsUpdatePayload a) "website" = false) ∧
      (a.logo_url = none → hasKey (brandsUpdatePayload a) "logoUrl" = false)) ∧
    (∀ a : CategoryUpdateArgs,
      (a.name = none → hasKey (categoriesUpdatePayload a) "name" = false) ∧
      (a.slug = none → hasKey (categoriesUpdatePayload a) "slug" = false) ∧
      (a.description = none →
        hasKey (categoriesUpdatePayload a) "description" = false) ∧
      (a.parent_id = none →
        hasKey (categoriesUpdatePayload a) "parentId" = false)) ∧
    (∀ a : ProductUpdateArgs,
      (a.title = none → hasKey (productsUpdatePayload a) "title" = false) ∧
      (a.slug = none → hasKey (productsUpdatePayload a) "slug" = false) ∧
      (a.description = none →
        hasKey (productsUpdatePayload a) "description" = false) ∧
      (a.brand_id = none → hasKey (productsUpdatePayload a) "brandId" = false) ∧
      (a.status = none → hasKey (productsUpdatePayload a) "status" = false) ∧
      (a.skuPfx = none → hasKey (productsUpdatePayload a) "skuPrefix" = false) ∧
      (a.image = none → hasKey (productsUpdatePayload a) "images" = false) ∧
      (a.category_ids = none →
        hasKey (productsUpdatePayload a) "categoryIds" = false)) ∧
    (∀ a : VariantUpdateArgs,
      (a.sku = none → hasKey (variantUpdatePayload a) "sku" = false) ∧
      (a.title = none → hasKey (variantUpdatePayload a) "title" = false) ∧
      (a.price_cents = none →
        hasKey (variantUpdatePayload a) "priceCents" = false) ∧
      (a.compare_at_cents = none →
        hasKey (variantUpdatePayload a) "compareAtCents" = false) ∧
      (a.cost_cents = none →
        hasKey (variantUpdatePayload a) "costCents" = false) ∧
      (a.currency = none → hasKey (variantUpdatePayload a) "currency" = false) ∧
      (a.track_inventory = none →
        hasKey (variantUpdatePayload a) "trackInventory" = false) ∧
      (a.isDefaultFlag = false →
        hasKey (variantUpdatePayload a) "isDefault" = false)) ∧
    (parseOptValFlag .bare = none ∧ parseOptValFlag .absent = none ∧
      ∀ s, parseOptValFlag (.val s) = some s) ∧
    (∀ id : String,
      brandsUpdatePayload ⟨id, none, none, some "", none, none⟩ =
        [("description", Json.str "")]) := by
  refine ⟨?_, ?_, ?_, ?_, ⟨rfl, rfl, fun s => rfl⟩, fun id => rfl⟩
  · intro a
    refine ⟨?_, ?_, ?_, ?_, ?_⟩ <;> intro h <;>
      simp [brandsUpdatePayload, h, hasKey_addIfSome_ne, hasKey_addIfTruthy_ne,
        addIfSome_none, addIfTruthy_none, hasKey_nil]
  · intro a
    refine ⟨?_, ?_, ?_, ?_⟩ <;> intro h <;>
      simp [categoriesUpdatePayload, h, hasKey_addIfSome_ne,
        hasKey_addIfTruthy_ne, addIfSome_none, addIfTruthy_none, hasKey_nil]
  · intro a
    refine ⟨?_, ?_, ?_, ?_, ?_, ?_, ?_, ?_⟩ <;> intro h <;>
      simp [productsUpdatePayload, h, hasKey_addIfSome_ne,
        hasKey_addIfTruthy_ne, hasKey_addImagesIf_ne,
        hasKey_addCategoryIdsIf_ne, addIfSome_none, addIfTruthy_none,
        addImagesIf_none, addCategoryIdsIf_none, hasKey_nil]
  · intro a
    refine ⟨?_, ?_, ?_, ?_, ?_, ?_, ?_, ?_⟩ <;> intro h <;>
      simp [variantUpdatePayload, h, hasKey_addIfSome_ne,
        hasKey_addIfTruthy_ne, hasKey_addIfSomeInt_ne, hasKey_addIfSomeBool_ne,
        hasKey_addDefaultIf_ne, addIfSome_none, addIfTruthy_none,
        addIfSomeInt_none, addIfSomeBool_none, addDefaultIf_false, hasKey_nil]

/-- Witness for C5 at single-flag inputs: the one supplied field is the only
one serialized, and unsupplied fields are absent. -/
theorem C5_update_payload_only_supplied_witness :
    hasKey (brandsUpdatePayload ⟨"b1", none, some "orbit", none, none, none⟩)
      "description" = false ∧
    hasKey (categoriesUpdatePayload ⟨"c1", none, none, none, some "root"⟩)
      "description" = false ∧
    hasKey (productsUpdatePayload
      ⟨"p1", some "Tee", none, none, none, none, none, none, none⟩)
      "categoryIds" = false ∧
    hasKey (variantUpdatePayload
      ⟨"v1", none, none, some 2499, none, none, none, none, false⟩)
      "trackInventory" = false :=
  ⟨(C5_update_payload_only_supplied.1
      ⟨"b1", none, some "orbit", none, none, none⟩).2.2.1 rfl,
   (C5_update_payload_only_supplied.2.1
      ⟨"c1", none, none, none, some "root"⟩).2.2.1 rfl,
   (C5_update_payload_only_supplied.2.2.1
      ⟨"p1", some "Tee", none, none, none, none, none, none, none⟩).2.2.2.2.2.2.2 rfl,
   (C5_update_payload_only_supplied.2.2.2.1
      ⟨"v1", none, none, some 2499, none, none, none, none, false⟩).2.2.2.2.2.2.1 rfl⟩

/-- Counterexample to C5 as stated: `brands update --description` with no
value parses to the `None` default (the `const` of the flag is also `None`),
so the payload omits the field entirely instead of sending a cleared value;
only an explicit empty value clears it. -/
theorem C5_counterexample :
    parseOptValFlag .bare = parseOptValFlag .absent ∧
    brandsUpdatePayload
      ⟨"b1", none, none, parseOptValFlag .bare, none, none⟩ = [] ∧
    hasKey (brandsUpdatePayload
      ⟨"b1", none, none, parseOptValFlag .bare, none, none⟩)
      "description" = false ∧
    brandsUpdatePayload
      ⟨"b1", none, none, parseOptValFlag (.val ""), none, none⟩ =
      [("description", Json.str "")] := ⟨rfl, rfl, rfl, rfl⟩

end Vexo
